import Mathlib

/-!
Verification of the SMS spam-detector core (React-Native/TypeScript sources
under `src/`).  The development shallowly embeds the four cooperating
services — `nlpClassifierService`, `classificationService`,
`telegramService` and `databaseService` (plus `smsMonitoringService`'s
ingestion loop and the `textPreprocessing` utilities) — as executable Lean
definitions and proves or refutes the frozen specification claims about
them.

JavaScript machine numbers are modelled as exact rationals (`ℚ`); all the
numeric literals of the source (0.15, 0.5, …) are exact decimal fractions,
so every arithmetic step of the source is representable.  JavaScript
regular expressions are modelled by a small executable backtracking
matcher over a restricted pattern AST (`RE`) that covers exactly the
constructs the source uses: literals, alternation (leftmost, first
alternative preferred), greedy bounded/unbounded character-class
repetition, greedy optional groups and `\b` word boundaries.  The
`lastIndex` semantics of `/g`-flagged regexes is modelled explicitly,
because the classifier keeps some of its regexes in shared instance
fields: `RegExp.prototype.test` reads `lastIndex` and writes the match
end (or 0 on failure), while `String.prototype.match` on a global regex
ignores the incoming `lastIndex` and leaves it reset to 0.
-/

/-! ## Character utilities (JS `\w`, `\s`, `\d`, case folding) -/

/-- JS `\w` = `[A-Za-z0-9_]`. -/
def isWordChar (c : Char) : Bool :=
  (('a' ≤ c && c ≤ 'z') || ('A' ≤ c && c ≤ 'Z') || ('0' ≤ c && c ≤ '9') || c = '_')

/-- JS `\d` = `[0-9]`. -/
def isDigitChar (c : Char) : Bool := '0' ≤ c && c ≤ '9'

/-- JS `\s` (the whitespace characters that can occur in SMS text). -/
def isSpaceChar (c : Char) : Bool :=
  (c = ' ' || c = '\t' || c = '\n' || c = '\r' || c = '\x0b' || c = '\x0c')

/-- `[a-zA-Z]`. -/
def isAsciiLetter (c : Char) : Bool :=
  (('a' ≤ c && c ≤ 'z') || ('A' ≤ c && c ≤ 'Z'))

/-- `[A-Z]`. -/
def isAsciiUpper (c : Char) : Bool := 'A' ≤ c && c ≤ 'Z'

/-- ASCII case folding, the fragment of `String.prototype.toLowerCase`
exercised by the sources (all pattern literals are ASCII). -/
def lowerChar (c : Char) : Char :=
  if 'A' ≤ c && c ≤ 'Z' then Char.ofNat (c.toNat + 32) else c

def lowerStr (s : List Char) : List Char := s.map lowerChar

/-- `needle` occurs as a prefix of `hay`. -/
def isPrefixChars : List Char → List Char → Bool
  | [], _ => true
  | _ :: _, [] => false
  | n :: ns, h :: hs => n = h && isPrefixChars ns hs

/-- JS `String.prototype.includes`: `needle` occurs somewhere in `hay`. -/
def hasSub (hay needle : List Char) : Bool :=
  isPrefixChars needle hay ||
    match hay with
    | [] => false
    | _ :: t => hasSub t needle

/-- Number of maximal runs of characters satisfying `p` (used for the
`/!+/g` and `/\b\w+\b/g` match counts). `inRun` records whether the
previous character satisfied `p`. -/
def countRuns (p : Char → Bool) : List Char → Bool → Nat
  | [], _ => 0
  | c :: t, inRun =>
    if p c then (if inRun then 0 else 1) + countRuns p t true
    else countRuns p t false

/-! ## A small JS-regex model

The pattern AST covers exactly the constructs appearing in the sources.
`matchEnds` returns the possible end positions of a match starting at a
given position, in JavaScript backtracking priority order (first element
= the end JS would choose); greedy repetition therefore yields its
candidates longest-first, alternation left branch first, and `opt`
(`(...)?`) the present branch first. -/

inductive RE where
  | lit (s : List Char)
  | cls (p : Char → Bool) (lo : Nat) (hi : Option Nat)
  | seq (l r : RE)
  | alt (l r : RE)
  | opt (r : RE)
  | bnd
deriving Inhabited

/-- Is position `i` preceded by a word character? (out of range = no) -/
def wordBefore (text : List Char) (i : Nat) : Bool :=
  match i with
  | 0 => false
  | j + 1 => match text.get? j with
    | some c => isWordChar c
    | none => false

/-- Is the character at position `i` a word character? (out of range = no) -/
def wordAt (text : List Char) (i : Nat) : Bool :=
  match text.get? i with
  | some c => isWordChar c
  | none => false

/-- JS `\b`: boundary holds at `i` iff exactly one side is a word char. -/
def boundaryAt (text : List Char) (i : Nat) : Bool :=
  wordBefore text i != wordAt text i

/-- Length of the maximal run of characters satisfying `p` starting at `i`,
capped at `cap`. -/
def runLen (p : Char → Bool) (text : List Char) (i : Nat) : Nat → Nat
  | 0 => 0
  | cap + 1 =>
    match text.get? i with
    | some c => if p c then runLen p text (i + 1) cap + 1 else 0
    | none => 0

/-- End positions (in priority order) of matches of `r` in `text`
starting exactly at position `i`. -/
def matchEnds (r : RE) (text : List Char) (i : Nat) : List Nat :=
  match r with
  | .lit s => if isPrefixChars s (text.drop i) then [i + s.length] else []
  | .cls p lo hi =>
    let cap := match hi with | some h => h | none => text.length
    let run := runLen p text i cap
    if run < lo then []
    else (List.range (run + 1 - lo)).map (fun k => i + run - k)
  | .seq l r => (matchEnds l text i).flatMap (fun j => matchEnds r text j)
  | .alt l r => matchEnds l text i ++ matchEnds r text i
  | .opt r => matchEnds r text i ++ [i]
  | .bnd => if boundaryAt text i then [i] else []

/-- First match of `r` at a starting position `≥ s`; `fuel` bounds the
scan (callers pass `text.length + 1 - s`).  Returns `(start, end)`. -/
def firstMatchAux (r : RE) (text : List Char) (s : Nat) : Nat → Option (Nat × Nat)
  | 0 => none
  | fuel + 1 =>
    match (matchEnds r text s).head? with
    | some e => some (s, e)
    | none => firstMatchAux r text (s + 1) fuel

/-- Leftmost match of `r` in `text` starting at or after index `i`
(the search JS performs for a `/g` regex whose `lastIndex` is `i`). -/
def firstMatchFrom (r : RE) (text : List Char) (i : Nat) : Option (Nat × Nat) :=
  firstMatchAux r text i (text.length + 1 - i)

/-- `RegExp.prototype.test` on a `/g` regex: search from `lastIndex`; on a
hit set `lastIndex` to the match end, on a miss reset it to 0. -/
def testG (r : RE) (text : List Char) (lastIndex : Nat) : Bool × Nat :=
  match firstMatchFrom r text lastIndex with
  | some (_, e) => (true, e)
  | none => (false, 0)

/-- Number of matches `String.prototype.match` returns for a `/g` regex
(non-overlapping, scanning left to right; an empty match advances by one).
`String.match` with `/g` always starts from index 0 and leaves
`lastIndex` at 0, so it is stateless. -/
def countMatchesAux (r : RE) (text : List Char) (i : Nat) : Nat → Nat
  | 0 => 0
  | fuel + 1 =>
    match firstMatchFrom r text i with
    | none => 0
    | some (s, e) => 1 + countMatchesAux r text (if e = s then e + 1 else e) fuel

def countMatches (r : RE) (text : List Char) : Nat :=
  countMatchesAux r text 0 (text.length + 1)

/-- `pattern.test(text)` on a freshly created regex (lastIndex 0). -/
def testFresh (r : RE) (text : List Char) : Bool :=
  (firstMatchFrom r text 0).isSome

/-- `Array.prototype.some(p => p.test(text))` over a list of *shared*
`/g` regexes paired with their `lastIndex` values: evaluation
short-circuits at the first hit, so later regexes keep their state. -/
def someTestG (text : List Char) : List RE → List Nat → Bool × List Nat
  | [], _ => (false, [])
  | _ :: _, [] => (false, [])
  | r :: rs, li :: lis =>
    let (b, li') := testG r text li
    if b then (true, li' :: lis)
    else
      let (b2, rest) := someTestG text rs lis
      (b2, li' :: rest)

/-- Fold a nonempty list of alternative literals into `alt` (leftmost
alternative preferred, as in JS). -/
def reAlts : List (List Char) → RE
  | [] => .lit []
  | [s] => .lit s
  | s :: rest => .alt (.lit s) (reAlts rest)

/-- Sequence a list of patterns. -/
def reSeqL : List RE → RE
  | [] => .lit []
  | [r] => r
  | r :: rest => .seq r (reSeqL rest)

def reLit (s : String) : RE := .lit s.data

def reAltsS (ss : List String) : RE := reAlts (ss.map String.data)

/-- `\b(...)\b` around an alternation of literal words/phrases — the shape
of most of the classifier's patterns. -/
def reWords (ss : List String) : RE := reSeqL [.bnd, reAltsS ss, .bnd]

def dashSpace (c : Char) : Bool := c = '-' || c = ' '

def dashDotSpace (c : Char) : Bool := c = '-' || c = '.' || isSpaceChar c

def spaceDash (c : Char) : Bool := isSpaceChar c || c = '-'

def digitComma (c : Char) : Bool := isDigitChar c || c = ','

/-- JS `.` (no `s` flag): anything but a line terminator. -/
def notNL (c : Char) : Bool := !(c = '\n' || c = '\r')

def notSpace (c : Char) : Bool := !isSpaceChar c

/-- `[\w.-]` (email pattern). -/
def wordDotDash (c : Char) : Bool := isWordChar c || c = '.' || c = '-'

namespace NLPClassifier

/-! ### `nlpClassifierService.ts` — pattern tables

Transliterations of the `spamPatterns` and `legitimatePatterns` instance
fields.  All regexes carry `/gi`; the classifier lowercases the text
before matching, and every pattern literal is lowercase, so `/i` is
handled by lowercasing.  Patterns used via `String.match` are stateless;
the `otp` and `banking` families are *also* used via `.test`, which on a
shared `/g` regex is stateful in `lastIndex` (modelled in `detectOTP` /
`detectBankingTerms` below). -/

/-- `/\b(one[- ]time password)...\b/` fragment: `one[- ]time password`. -/
def oneTimePassword : RE :=
  reSeqL [reLit "one", .cls dashSpace 1 (some 1), reLit "time password"]

/-- `opt[- ]out`. -/
def optOut : RE := reSeqL [reLit "opt", .cls dashSpace 1 (some 1), reLit "out"]

def spamPromotional : List RE :=
  [ reWords ["free", "offer", "discount", "sale", "deal", "limited time", "hurry", "act now"],
    reWords ["click here", "visit", "shop now", "buy now"],
    reWords ["congratulations", "winner", "prize", "reward"] ]

def spamFinancialScam : List RE :=
  [ reWords ["lottery", "jackpot", "million", "billion", "won", "claim"],
    reWords ["urgent", "immediate action", "verify account", "suspended"],
    reWords ["refund", "tax return", "inheritance", "beneficiary"] ]

def spamPhishing : List RE :=
  [ reSeqL [.bnd, reAltsS ["verify", "confirm", "update", "validate"], reLit " ",
            .opt (reLit "your "), reAltsS ["account", "password", "card", "details"], .bnd],
    reSeqL [.bnd, reAltsS ["click", "tap"], reLit " ",
            .opt (.alt (reLit "this ") (reLit "the ")), reAltsS ["link", "url"], .bnd],
    reSeqL [.bnd, reAltsS ["expire", "expired", "suspended", "locked"], reLit " ",
            reAltsS ["account", "card"], .bnd] ]

def spamGeneric : List RE :=
  [ reSeqL [.bnd, .alt (reLit "unsubscribe") (.alt optOut (reLit "reply stop")), .bnd],
    reWords ["earn money", "work from home", "make $"],
    reWords ["no credit check", "guaranteed approval"] ]

def spamPatterns : List (List RE) :=
  [spamPromotional, spamFinancialScam, spamPhishing, spamGeneric]

/-- `/\b(INR|Rs\.?|₹)\s*[\d,]+/` (shared by `banking` and the money
detector). -/
def currencyAmount : RE :=
  reSeqL [.bnd, .alt (reLit "inr") (.alt (.seq (reLit "rs") (.opt (reLit "."))) (reLit "₹")),
          .cls isSpaceChar 0 none, .cls digitComma 1 none]

def legitBanking : List RE :=
  [ reWords ["credited", "debited", "transaction", "balance", "account"],
    currencyAmount,
    reWords ["upi", "neft", "rtgs", "imps"],
    reWords ["available balance", "current balance", "minimum balance"],
    reSeqL [.bnd, reLit "thank you for ", reAltsS ["using", "banking", "shopping"], .bnd] ]

def legitOtp : List RE :=
  [ reSeqL [.bnd, .alt (reLit "otp") (.alt oneTimePassword
        (.alt (reLit "verification code") (reLit "security code"))), .bnd],
    reSeqL [.bnd, .cls isDigitChar 4 (some 6), .bnd, .cls notNL 0 none, .bnd,
            reAltsS ["code", "otp", "password", "pin"], .bnd],
    reSeqL [.bnd, reLit "do not share ", .opt (.alt (reLit "this ") (reLit "your ")),
            reAltsS ["code", "otp", "password"], .bnd],
    reSeqL [.bnd, .alt (reLit "valid for") (reLit "expires in"), reLit " ",
            .cls isDigitChar 1 none, .cls isSpaceChar 0 (some 1),
            reAltsS ["min", "minutes", "hour", "hours"], .bnd] ]

def legitDelivery : List RE :=
  [ reWords ["order", "parcel", "package", "delivery", "shipped", "dispatched"],
    reSeqL [.bnd, .alt (.seq (reLit "tracking ") (reAltsS ["id", "number", "code"]))
                       (reLit "awb"), .bnd],
    reWords ["out for delivery", "delivered", "in transit"],
    reWords ["expected delivery", "estimated delivery"] ]

def legitBooking : List RE :=
  [ reWords ["booking", "reservation", "confirmed", "ticket", "pnr"],
    reSeqL [.bnd, reAltsS ["flight", "train", "bus", "hotel", "movie"], .bnd,
            .cls notNL 0 none, .bnd, reAltsS ["confirmed", "booked"], .bnd],
    reSeqL [.bnd, .alt (.seq (reLit "seat ") (reAltsS ["number", "no"])) (reLit "berth"), .bnd] ]

def legitService : List RE :=
  [ reWords ["appointment", "reminder", "scheduled", "meeting"],
    reWords ["bill", "invoice", "payment", "due", "statement"],
    reWords ["subscription", "renewal", "plan"] ]

def legitimatePatterns : List (List RE) :=
  [legitBanking, legitOtp, legitDelivery, legitBooking, legitService]

/-! ### Feature extraction -/

/-- The URL patterns are array literals local to `detectURLs`, so every
call gets fresh regexes (`lastIndex = 0`): the detector is stateless. -/
def urlPatterns : List RE :=
  [ reSeqL [reLit "http", .opt (reLit "s"), reLit "://"],
    reLit "www.",
    reSeqL [.bnd, .cls isWordChar 1 none, reLit ".",
            reAltsS ["com", "in", "org", "net", "co.in", "me", "io"], .bnd],
    reAltsS ["bit.ly", "goo.gl", "tinyurl"] ]

def detectURLs (text : List Char) : Bool := urlPatterns.any (fun r => testFresh r text)

def phonePatterns : List RE :=
  [ reSeqL [.bnd, .cls isDigitChar 10 (some 10), .bnd],
    reSeqL [reLit "+91", .cls spaceDash 0 (some 1), .cls isDigitChar 10 (some 10)],
    reSeqL [.cls isDigitChar 3 (some 3), .cls spaceDash 1 (some 1),
            .cls isDigitChar 3 (some 3), .cls spaceDash 1 (some 1),
            .cls isDigitChar 4 (some 4)] ]

def detectPhoneNumbers (text : List Char) : Bool :=
  phonePatterns.any (fun r => testFresh r text)

def moneyPatterns : List RE :=
  [ currencyAmount,
    reSeqL [reLit "$", .cls isSpaceChar 0 none, .cls digitComma 1 none],
    reSeqL [.bnd, .cls isDigitChar 1 none, .cls isSpaceChar 0 none,
            reAltsS ["crore", "lakh", "thousand", "million", "billion"], .bnd] ]

def detectMoneyAmounts (text : List Char) : Bool :=
  moneyPatterns.any (fun r => testFresh r text)

def urgentWords : List String :=
  ["urgent", "immediately", "now", "hurry", "quick", "fast",
   "expire", "expires", "limited", "today", "act now", "deadline"]

/-- `calculateUrgencyScore`: +0.1 per urgent word the text `includes`,
plus `min(count(/!+/g) * 0.05, 0.3)`, the whole capped at 1. -/
def calculateUrgencyScore (text : List Char) : ℚ :=
  let base : ℚ := urgentWords.foldl
    (fun acc w => if hasSub text w.data then acc + 1/10 else acc) 0
  let exclamations : ℚ := (countRuns (fun c => c = '!') text false : ℚ)
  min (base + min (exclamations * (5/100)) (3/10)) 1

/-- Maximal runs of word characters — the matches of `/\b\w+\b/g`, i.e.
the classifier's `tokenize`. -/
def wordRunsAux : List Char → List Char → List (List Char)
  | [], cur => if cur.isEmpty then [] else [cur.reverse]
  | c :: t, cur =>
    if isWordChar c then wordRunsAux t (c :: cur)
    else if cur.isEmpty then wordRunsAux t []
    else cur.reverse :: wordRunsAux t []

def wordRuns (text : List Char) : List (List Char) := wordRunsAux text []

def positiveWords : List String :=
  ["free", "win", "winner", "congratulations", "amazing", "best"]

def negativeWords : List String :=
  ["expire", "suspend", "block", "urgent", "warning", "alert"]

/-- `analyzeSentiment`: the external `compromise` library's `doc.has(word)`
is modelled as whole-word membership in the text's tokens.  The scorer
and the reason generator never read this feature, so no theorem below
depends on this modelling choice. -/
def analyzeSentiment (text : List Char) : ℚ :=
  let toks := wordRuns text
  let pos : ℚ := positiveWords.foldl
    (fun acc w => if toks.contains w.data then acc + 1/10 else acc) 0
  negativeWords.foldl (fun acc w => if toks.contains w.data then acc - 1/10 else acc) pos

/-- The `lastIndex` values of the two regex families the classifier keeps
in instance fields and also uses via `.test` (the only stateful reads).
The spam families live in shared fields too, but are only ever used via
`String.match`, which never *reads* `lastIndex`, so no state is tracked
for them. -/
structure RegexState where
  otpLI : List Nat
  bankingLI : List Nat
deriving DecidableEq

def initialRegexState : RegexState :=
  ⟨[0, 0, 0, 0], [0, 0, 0, 0, 0]⟩

/-- `countSpamKeywords` sums `text.match(pattern).length` over the shared
spam-pattern regexes.  `String.prototype.match` on a global regex writes
`lastIndex := 0` before matching and its final failing exec resets it to
0 again, so the returned count is independent of any prior `lastIndex`
(and the spam regexes are left at 0, though nothing ever reads them). -/
def countSpamKeywords (text : List Char) : Nat :=
  (spamPatterns.flatMap id).foldl (fun acc r => acc + countMatches r text) 0

/-- `countLegitimatePatterns` sums `text.match(pattern).length` over the
shared legitimate-pattern regexes — the *same* objects `detectOTP` and
`detectBankingTerms` later `.test`.  Because `String.prototype.match` on
a global regex writes `lastIndex := 0` before matching and leaves it 0
when the final exec fails, this call both returns a count that is
independent of the incoming state and resets every otp/banking
`lastIndex` to 0, whatever the argument state held. -/
def countLegitimatePatterns (st : RegexState) (text : List Char) : Nat × RegexState :=
  ((legitimatePatterns.flatMap id).foldl (fun acc r => acc + countMatches r text) 0,
   ⟨[0, 0, 0, 0], [0, 0, 0, 0, 0]⟩)

/-- `detectOTP` calls `.test` on the *shared* `legitimatePatterns.otp`
regexes: it reads and writes their `lastIndex` values. -/
def detectOTP (li : List Nat) (text : List Char) : Bool × List Nat :=
  someTestG text legitOtp li

/-- `detectBankingTerms` likewise shares `legitimatePatterns.banking`. -/
def detectBankingTerms (li : List Nat) (text : List Char) : Bool × List Nat :=
  someTestG text legitBanking li

/-- `calculateCapitalRatio`: uppercase letters over alphabetic characters,
0 (not NaN) when the text has no letters.  Receives the *original*
(uncased) message. -/
def calculateCapitalRatio (text : List Char) : ℚ :=
  let letters := text.filter isAsciiLetter
  if letters.length = 0 then 0
  else ((text.filter isAsciiUpper).length : ℚ) / (letters.length : ℚ)

structure Features where
  hasURL : Bool
  hasPhoneNumber : Bool
  hasMoneyAmount : Bool
  urgencyScore : ℚ
  sentimentScore : ℚ
  spamKeywordCount : Nat
  legitPatternCount : Nat
  hasOTP : Bool
  hasBankingTerms : Bool
  capitalRatio : ℚ
  exclamationCount : Nat
  questionCount : Nat
  wordCount : Nat
deriving DecidableEq

/-- The feature record built at the top of `classifyMessage`.  Field
order follows the source: `legitPatternCount` is computed *before*
`hasOTP` and `hasBankingTerms`, and its `String.match` calls reset the
shared otp/banking regexes' `lastIndex` to 0, so the two stateful
`.test` detectors always start from 0 — the incoming `st` is
overwritten before anything reads it.  Only the *outgoing* state (the
detectors' `lastIndex` writes) survives the call. -/
def extractFeatures (st : RegexState) (message : String) : Features × RegexState :=
  let text := lowerStr message.data
  let legit := countLegitimatePatterns st text
  let otp := detectOTP legit.2.otpLI text
  let bank := detectBankingTerms legit.2.bankingLI text
  (⟨detectURLs text,
    detectPhoneNumbers text,
    detectMoneyAmounts text,
    calculateUrgencyScore text,
    analyzeSentiment text,
    countSpamKeywords text,
    legit.1,
    otp.1,
    bank.1,
    calculateCapitalRatio message.data,
    (message.data.filter (fun c => c = '!')).length,
    (message.data.filter (fun c => c = '?')).length,
    (wordRuns text).length⟩,
   ⟨otp.2, bank.2⟩)

/-- `calculateSpamScore`: weighted increments/decrements from the neutral
0.5, clamped to [0,1]. -/
def calculateSpamScore (f : Features) : ℚ :=
  let s0 : ℚ := 1/2
  let s1 := if f.spamKeywordCount > 0 then s0 + (f.spamKeywordCount : ℚ) * (15/100) else s0
  let s2 := if f.urgencyScore > 1/2 then s1 + 2/10 else s1
  let s3 := if f.capitalRatio > 1/2 then s2 + 15/100 else s2
  let s4 := if f.exclamationCount > 2 then s3 + 1/10 else s3
  let s5 := if f.hasURL && !f.hasBankingTerms then s4 + 2/10 else s4
  let s6 := if f.legitPatternCount > 0 then s5 - (f.legitPatternCount : ℚ) * (2/10) else s5
  let s7 := if f.hasOTP then s6 - 4/10 else s6
  let s8 := if f.hasBankingTerms then s7 - 3/10 else s7
  let s9 := if f.hasMoneyAmount && f.hasBankingTerms then s8 - 2/10 else s8
  max 0 (min 1 s9)

/-- `generateReason` (the `score` argument is accepted and, as in the
source, unused). -/
def generateReason (f : Features) (isSpam : Bool) (score : ℚ) : String :=
  if isSpam then
    let n := f.spamKeywordCount
    let reasons : List String :=
      (if f.spamKeywordCount > 0 then [s!"{n} spam keyword(s)"] else []) ++
      (if f.urgencyScore > 1/2 then ["urgent language"] else []) ++
      (if f.capitalRatio > 1/2 then ["excessive capitalization"] else []) ++
      (if f.hasURL then ["contains suspicious link"] else []) ++
      (if f.exclamationCount > 2 then ["multiple exclamation marks"] else [])
    if reasons.isEmpty then "Spam pattern detected"
    else "Spam detected: " ++ String.intercalate ", " reasons
  else
    let m := f.legitPatternCount
    let reasons : List String :=
      (if f.hasOTP then ["OTP/verification code"] else []) ++
      (if f.hasBankingTerms then ["banking transaction"] else []) ++
      (if f.legitPatternCount > 0 then [s!"{m} legitimate pattern(s)"] else [])
    if reasons.isEmpty then "No spam indicators found"
    else "Legitimate: " ++ String.intercalate ", " reasons

structure NLPResult where
  isSpam : Bool
  confidence : ℚ
  reason : String
  features : Features
deriving DecidableEq

/-- `Math.round` (ties round up, as for all the nonnegative values that
occur here). -/
def jsRound (q : ℚ) : ℤ := ⌊q + 1/2⌋

/-- The feature-to-result tail of `classifyMessage` (everything after the
feature record is built): threshold 0.5 with ties to ham, confidence
`|score − 0.5| × 2` rounded to two decimals, reason from
`generateReason`. -/
def classifyFromFeatures (f : Features) : NLPResult :=
  let score := calculateSpamScore f
  let isSpam := decide (score > 1/2)
  let confidence := |score - 1/2| * 2
  let reason := generateReason f isSpam score
  ⟨isSpam, (jsRound (confidence * 100) : ℚ) / 100, reason, f⟩

/-- `nlpClassifierService.classifyMessage`, threading the shared regex
state. -/
def classifyMessage (st : RegexState) (message : String) : NLPResult × RegexState :=
  let (f, st') := extractFeatures st message
  (classifyFromFeatures f, st')

end NLPClassifier

/-! ## `textPreprocessing.ts` -/

/-- `String.prototype.replace` with a `/g` regex and the replacement
`' '` used by `preprocessText`: each match is replaced by one space. -/
def replaceAllAux (r : RE) (text : List Char) (i : Nat) : Nat → List Char
  | 0 => text.drop i
  | fuel + 1 =>
    match firstMatchFrom r text i with
    | none => text.drop i
    | some (s, e) =>
      if e = s then
        ((text.drop i).take (s - i)) ++ ' ' ::
          (match text.get? s with
           | some c => c :: replaceAllAux r text (s + 1) fuel
           | none => [])
      else ((text.drop i).take (s - i)) ++ ' ' :: replaceAllAux r text e fuel

def replaceAllRE (r : RE) (text : List Char) : List Char :=
  replaceAllAux r text 0 (text.length + 1)

/-- `/https?:\/\/[^\s]+/g`. -/
def urlStripRE : RE :=
  reSeqL [reLit "http", .opt (reLit "s"), reLit "://", .cls notSpace 1 none]

/-- `/[\w.-]+@[\w.-]+\.\w+/g`. -/
def emailStripRE : RE :=
  reSeqL [.cls wordDotDash 1 none, reLit "@", .cls wordDotDash 1 none,
          reLit ".", .cls isWordChar 1 none]

/-- `/(\+?\d{1,3}[-.\s]?)?\(?\d{3}\)?[-.\s]?\d{3}[-.\s]?\d{4}/g`. -/
def phoneStripRE : RE :=
  reSeqL [.opt (reSeqL [.opt (reLit "+"), .cls isDigitChar 1 (some 3),
                        .cls dashDotSpace 0 (some 1)]),
          .opt (reLit "("), .cls isDigitChar 3 (some 3), .opt (reLit ")"),
          .cls dashDotSpace 0 (some 1), .cls isDigitChar 3 (some 3),
          .cls dashDotSpace 0 (some 1), .cls isDigitChar 4 (some 4)]

/-- `/[^\w\s']/g` (punctuation, keeping apostrophes). -/
def punctStripRE : RE :=
  .cls (fun c => !(isWordChar c || isSpaceChar c || c = Char.ofNat 39)) 1 (some 1)

/-- `/\s+/g` replaced by a single space. -/
def wsCollapseRE : RE := .cls isSpaceChar 1 none

def trimChars (l : List Char) : List Char :=
  ((l.dropWhile isSpaceChar).reverse.dropWhile isSpaceChar).reverse

/-- `preprocessText`: lowercase, strip URLs / e-mails / phone numbers /
punctuation, collapse whitespace, trim.  `if (!text) return ''` is the
empty-string guard. -/
def preprocessText (text : List Char) : List Char :=
  if text.isEmpty then []
  else
    let p := lowerStr text
    let p := replaceAllRE urlStripRE p
    let p := replaceAllRE emailStripRE p
    let p := replaceAllRE phoneStripRE p
    let p := replaceAllRE punctStripRE p
    let p := replaceAllRE wsCollapseRE p
    trimChars p

/-- Maximal runs of characters satisfying `p`, as lists. -/
def runsByAux (p : Char → Bool) : List Char → List Char → List (List Char)
  | [], cur => if cur.isEmpty then [] else [cur.reverse]
  | c :: t, cur =>
    if p c then runsByAux p t (c :: cur)
    else if cur.isEmpty then runsByAux p t []
    else cur.reverse :: runsByAux p t []

/-- `tokenize`: `preprocessText(text).split(' ')` with empty words
dropped — i.e. the maximal space-free runs of the preprocessed text. -/
def tokenize (text : List Char) : List (List Char) :=
  runsByAux (fun c => !(c = ' ')) (preprocessText text) []

/-- `calculateKeywordSpamScore`: fraction of tokens that match a keyword
(`keyword.includes(token) || token.includes(keyword)`), capped at 1;
0 for an empty token list. -/
def calculateKeywordSpamScore (text : List Char) (keywords : List String) : ℚ :=
  let tokens := tokenize text
  if tokens.length = 0 then 0
  else
    let processedKeywords := keywords.map (fun k => lowerStr k.data)
    let matchCount := tokens.countP
      (fun t => processedKeywords.any (fun k => hasSub k t || hasSub t k))
    min ((matchCount : ℚ) / (tokens.length : ℚ)) 1

/-! ## `classificationService.ts` -/

namespace Classification

/-- `SPAM_KEYWORDS` from `types/index.ts`. -/
def SPAM_KEYWORDS : List String :=
  ["lottery", "winner", "congratulations", "claim", "prize", "urgent",
   "limited time", "act now", "click here", "free", "cash", "discount",
   "offer", "deal", "credit", "loan", "debt", "investment", "earn money",
   "work from home", "bitcoin", "crypto", "viagra", "pharmacy", "pills",
   "weight loss", "enlarge", "singles", "dating", "verify account",
   "suspended", "confirm", "reset password", "bank account",
   "social security", "irs", "refund", "tax", "gift card"]

structure ClassificationResult where
  isSpam : Bool
  confidence : ℚ
  reason : String
deriving DecidableEq

/-- `classifyWithKeywords`: spam iff the keyword ratio exceeds 0.15;
confidence `min(score × 2, 0.85)`. -/
def classifyWithKeywords (text : String) : ClassificationResult :=
  let score := calculateKeywordSpamScore text.data SPAM_KEYWORDS
  let isSpam := decide (score > 15/100)
  let pct := NLPClassifier.jsRound (score * 100)
  ⟨isSpam, min (score * 2) (85/100),
   if isSpam then s!"Detected spam keywords ({pct}% match). Using fallback detection."
   else "No significant spam keywords detected. Using fallback detection."⟩

/-- The validated shape of a Gemini response: `classifyWithAI` extracts a
JSON object from the raw response text and checks `isSpam : boolean`,
`confidence : number`, `reason : string`.  The raw network/parse layer is
external (HTTP + `JSON.parse`), so the adjudication outcome is modelled
abstractly: `failure` covers a thrown network error, a response without a
JSON object, an unparseable JSON object and a shape-invalid one (the
source throws in each of those cases); `success r` carries the three
validated fields. -/
structure AIRaw where
  isSpam : Bool
  confidence : ℚ
  reason : String
deriving DecidableEq

inductive AIOutcome where
  | failure
  | success (r : AIRaw)
deriving DecidableEq

/-- `classifyWithAI` after the model call: on success the parsed fields
are returned with confidence clamped into [0,1]; every failure mode
throws (modelled as `Except.error`). -/
def classifyWithAI (outcome : AIOutcome) : Except String ClassificationResult :=
  match outcome with
  | .failure => .error "Invalid AI response format"
  | .success r => .ok ⟨r.isSpam, max 0 (min 1 r.confidence), r.reason⟩

/-- `classificationService.classifyMessage`: if the service is
initialized, try the AI path and catch any error; otherwise (or on
error) fall back to keyword classification.  Totality of this function
is the source's never-throws guarantee: the only `await` that can throw
is wrapped in the `try`/`catch`, and `classifyWithKeywords` is pure. -/
def classifyMessage (initialized : Bool) (outcome : AIOutcome)
    (text : String) : ClassificationResult :=
  if initialized then
    match classifyWithAI outcome with
    | .ok r => r
    | .error _ => classifyWithKeywords text
  else classifyWithKeywords text

end Classification

/-! ## `telegramService.ts` — notification dispatcher with offline queue -/

namespace Telegram

/-- Dispatcher state.  `netSucceeds n` is the external channel's answer to
the `n`-th `sendMessage` call of the run (true = the Telegram API
acknowledged); `netCalls` counts the calls made so far.  `queue` holds
`(message, retries)` pairs exactly as the source's
`Array<{message, retries}>`. -/
structure State where
  initialized : Bool
  enabled : Bool
  queue : List (String × Nat)
  isProcessing : Bool
  netSucceeds : Nat → Bool
  netCalls : Nat

/-- `addToQueue`: evict the oldest entry when the queue is at its fixed
capacity 50, then append with `retries = 0`. -/
def addToQueue (s : State) (m : String) : State :=
  let q := if s.queue.length ≥ 50 then s.queue.drop 1 else s.queue
  { s with queue := q ++ [(m, 0)] }

/-- `sendSpamNotification`: returns false without side effects when the
service is uninitialized or disabled; otherwise makes one network call
and, if it fails (the `catch`), re-queues the message with `retries = 0`
and returns false.  The surrounding `try`/`catch` means this function
never throws, which is why it is total here. -/
def sendSpamNotification (s : State) (m : String) : Bool × State :=
  if !(s.initialized && s.enabled) then (false, s)
  else
    let ok := s.netSucceeds s.netCalls
    let s' := { s with netCalls := s.netCalls + 1 }
    if ok then (true, s')
    else (false, addToQueue s' m)

/-- The `for` loop of `processQueue`.  The loop body awaits
`sendSpamNotification` (which never throws — it catches internally and
returns a boolean that the loop does not read) and then a pure delay, so
the source's `catch` branch — the one that increments `item.retries` and
drops an item after 3 attempts — is unreachable: `sent` is incremented
for every item and `failed` never is. -/
def processItems (s : State) : List (String × Nat) → Nat × Nat × State
  | [] => (0, 0, s)
  | (m, _retries) :: rest =>
    let (_ok, s') := sendSpamNotification s m
    let (sent, failed, s'') := processItems s' rest
    (sent + 1, failed, s'')

/-- `processQueue`: no-op returning zero counts when uninitialized,
disabled, or a drain is already in progress; otherwise snapshots and
clears the queue, processes every snapshotted item, and clears the
`isProcessing` flag. -/
def processQueue (s : State) : (Nat × Nat) × State :=
  if !s.initialized || !s.enabled || s.isProcessing then ((0, 0), s)
  else
    let items := s.queue
    let s' := { s with isProcessing := true, queue := [] }
    let (sent, failed, s'') := processItems s' items
    ((sent, failed), { s'' with isProcessing := false })

end Telegram

/-! ## `databaseService.ts` store and `smsMonitoringService.ts` ingestion -/

namespace Store

/-- A persisted `sms_messages` row. -/
structure Row where
  sender : String
  body : String
  timestamp : Int
  isSpam : Option Bool
  confidence : Option ℚ
  reason : Option String
  classifiedAt : Option Int
deriving DecidableEq

/-- The store, keyed by message id (`id TEXT PRIMARY KEY`). -/
def DB := List (String × Row)

/-- `getMessage` / `SELECT ... WHERE id = ?`. -/
def dbGet (db : DB) (id : String) : Option Row :=
  match db.find? (fun e => e.1 = id) with
  | some e => some e.2
  | none => none

/-- `insertMessage` / `INSERT OR REPLACE`: replaces the row in place when
the id exists, appends otherwise. -/
def dbInsertOrReplace (db : DB) (id : String) (row : Row) : DB :=
  match db with
  | [] => [(id, row)]
  | e :: rest =>
    if e.1 = id then (id, row) :: rest
    else e :: dbInsertOrReplace rest id row

/-- `updateClassification` / `UPDATE sms_messages SET ... WHERE id = ?`. -/
def dbUpdateClassification (db : DB) (id : String) (isSpam : Bool)
    (confidence : ℚ) (reason : String) (now : Int) : DB :=
  db.map (fun e =>
    if e.1 = id then
      (e.1, { e.2 with isSpam := some isSpam, confidence := some confidence,
                       reason := some reason, classifiedAt := some now })
    else e)

/-- A `(sender, body, timestamp)` tuple from the device inbox, with the
device-assigned id. -/
structure NativeMsg where
  id : String
  sender : String
  body : String
  timestamp : Int
deriving DecidableEq

/-- One iteration of the `loadAndClassifyInbox` loop, restricted to its
storage effects: skip entirely when the id is already stored; otherwise
insert the unclassified row, classify (the classifier's verdict `cr` and
the clock `now` are inputs here), and write the classification.  The
Telegram notification touches no storage.  Returns the store and the
`processedCount` increment. -/
def ingestInboxMessage (db : DB) (nm : NativeMsg)
    (cr : Classification.ClassificationResult) (now : Int) : DB × Nat :=
  match dbGet db nm.id with
  | some _ => (db, 0)
  | none =>
    let db1 := dbInsertOrReplace db nm.id
      ⟨nm.sender, nm.body, nm.timestamp, none, none, none, none⟩
    let db2 := dbUpdateClassification db1 nm.id cr.isSpam cr.confidence cr.reason now
    (db2, 1)

end Store

/-! ## Theorems -/

namespace NLPClassifier

lemma ite_add_times20 {c : Prop} [Decidable c] {a d : ℚ}
    (ha : ∃ n : ℤ, a * 20 = n) (hd : ∃ m : ℤ, d * 20 = m) :
    ∃ n : ℤ, (if c then a + d else a) * 20 = n := by
  obtain ⟨n, hn⟩ := ha
  obtain ⟨m, hm⟩ := hd
  split
  · exact ⟨n + m, by push_cast [← hn, ← hm]; ring⟩
  · exact ⟨n, hn⟩

lemma ite_sub_times20 {c : Prop} [Decidable c] {a d : ℚ}
    (ha : ∃ n : ℤ, a * 20 = n) (hd : ∃ m : ℤ, d * 20 = m) :
    ∃ n : ℤ, (if c then a - d else a) * 20 = n := by
  obtain ⟨n, hn⟩ := ha
  obtain ⟨m, hm⟩ := hd
  split
  · exact ⟨n - m, by push_cast [← hn, ← hm]; ring⟩
  · exact ⟨n, hn⟩

lemma clamp01_times20 {x : ℚ} (hx : ∃ n : ℤ, x * 20 = n) :
    ∃ n : ℤ, (max 0 (min 1 x)) * 20 = n := by
  obtain ⟨n, hn⟩ := hx
  rcases le_total x 0 with h | h
  · refine ⟨0, ?_⟩
    rw [max_eq_left (by simpa using min_le_of_right_le h)]
    norm_num
  · rcases le_total x 1 with h1 | h1
    · refine ⟨n, ?_⟩
      rw [min_eq_right h1, max_eq_right h]
      exact hn
    · refine ⟨20, ?_⟩
      rw [min_eq_left h1, max_eq_right (by norm_num)]
      norm_num

/-- The running score of `calculateSpamScore` only ever moves in steps of
1/20, so 20 × score is an integer. -/
lemma scoreTimes20_int (f : Features) : ∃ n : ℤ, calculateSpamScore f * 20 = n := by
  simp only [calculateSpamScore]
  apply clamp01_times20
  refine ite_sub_times20 ?_ ⟨4, by norm_num⟩
  refine ite_sub_times20 ?_ ⟨6, by norm_num⟩
  refine ite_sub_times20 ?_ ⟨8, by norm_num⟩
  refine ite_sub_times20 ?_ ⟨4 * (f.legitPatternCount : ℤ), by push_cast; ring⟩
  refine ite_add_times20 ?_ ⟨4, by norm_num⟩
  refine ite_add_times20 ?_ ⟨2, by norm_num⟩
  refine ite_add_times20 ?_ ⟨3, by norm_num⟩
  refine ite_add_times20 ?_ ⟨4, by norm_num⟩
  refine ite_add_times20 ?_ ⟨3 * (f.spamKeywordCount : ℤ), by push_cast; ring⟩
  exact ⟨10, by norm_num⟩

lemma calculateSpamScore_nonneg (f : Features) : 0 ≤ calculateSpamScore f := by
  simp only [calculateSpamScore]
  exact le_max_left _ _

lemma calculateSpamScore_le_one (f : Features) : calculateSpamScore f ≤ 1 := by
  simp only [calculateSpamScore]
  exact max_le (by norm_num) (min_le_left _ _)

lemma jsRound_intCast (z : ℤ) : jsRound (z : ℚ) = z := by
  unfold jsRound
  rw [add_comm, Int.floor_add_int]
  norm_num

/-- Rounding to two decimals is the identity on the classifier's
confidence values (they are all multiples of 1/10). -/
lemma confidence_round_id (f : Features) :
    (jsRound (|calculateSpamScore f - 1/2| * 2 * 100) : ℚ) / 100 =
      |calculateSpamScore f - 1/2| * 2 := by
  obtain ⟨n, hn⟩ := scoreTimes20_int f
  have hs : calculateSpamScore f = (n : ℚ) / 20 := by
    field_simp
    linarith [hn]
  have key : |calculateSpamScore f - 1/2| * 2 * 100 = ((|n - 10| * 10 : ℤ) : ℚ) := by
    rw [hs, show ((n : ℚ) / 20 - 1/2) = ((n : ℚ) - 10) / 20 by ring, abs_div]
    push_cast
    rw [abs_of_nonneg (show (0:ℚ) ≤ 20 by norm_num)]
    ring
  rw [key, jsRound_intCast]
  have key2 : |calculateSpamScore f - 1/2| * 2 = ((|n - 10| * 10 : ℤ) : ℚ) / 100 := by
    rw [hs, show ((n : ℚ) / 20 - 1/2) = ((n : ℚ) - 10) / 20 by ring, abs_div]
    push_cast
    rw [abs_of_nonneg (show (0:ℚ) ≤ 20 by norm_num)]
    ring
  rw [key2]

end NLPClassifier

/-- Claim C4: for every feature set, the Scorer classifies as spam exactly
when the clamped score is strictly greater than 0.5 (0.5 itself yields
ham), and the returned confidence equals `|score − 0.5| × 2`, which lies
in [0, 1]. -/
theorem C4_scorer_threshold_and_confidence (f : NLPClassifier.Features) :
    ((NLPClassifier.classifyFromFeatures f).isSpam = true ↔
        NLPClassifier.calculateSpamScore f > 1/2) ∧
    (NLPClassifier.classifyFromFeatures f).confidence =
        |NLPClassifier.calculateSpamScore f - 1/2| * 2 ∧
    0 ≤ (NLPClassifier.classifyFromFeatures f).confidence ∧
    (NLPClassifier.classifyFromFeatures f).confidence ≤ 1 := by
  have hconf : (NLPClassifier.classifyFromFeatures f).confidence =
      |NLPClassifier.calculateSpamScore f - 1/2| * 2 := by
    simp only [NLPClassifier.classifyFromFeatures]
    exact NLPClassifier.confidence_round_id f
  refine ⟨?_, hconf, ?_, ?_⟩
  · simp only [NLPClassifier.classifyFromFeatures]
    exact decide_eq_true_iff
  · rw [hconf]
    positivity
  · rw [hconf]
    have h0 := NLPClassifier.calculateSpamScore_nonneg f
    have h1 := NLPClassifier.calculateSpamScore_le_one f
    have habs : |NLPClassifier.calculateSpamScore f - 1/2| ≤ 1/2 :=
      abs_le.mpr ⟨by linarith, by linarith⟩
    linarith

/-- Claim C9: when no spam indicator and no legitimacy indicator fires,
the Scorer stays at the neutral score, returning ham with confidence 0
and the non-empty default reason. -/
theorem C9_scorer_neutral (f : NLPClassifier.Features)
    (hkw : f.spamKeywordCount = 0) (hu : f.urgencyScore ≤ 1/2)
    (hcap : f.capitalRatio ≤ 1/2) (hex : f.exclamationCount ≤ 2)
    (hurl : f.hasURL = false) (hlegit : f.legitPatternCount = 0)
    (hotp : f.hasOTP = false) (hbank : f.hasBankingTerms = false) :
    (NLPClassifier.classifyFromFeatures f).isSpam = false ∧
    (NLPClassifier.classifyFromFeatures f).confidence = 0 ∧
    (NLPClassifier.classifyFromFeatures f).reason = "No spam indicators found" := by
  have hscore : NLPClassifier.calculateSpamScore f = 1/2 := by
    simp only [NLPClassifier.calculateSpamScore, hkw, hurl, hotp, hbank, hlegit]
    rw [if_neg (by omega : ¬ (0 > 0)), if_neg (not_lt.mpr hu), if_neg (not_lt.mpr hcap),
        if_neg (by omega : ¬ (f.exclamationCount > 2))]
    norm_num
  refine ⟨?_, ?_, ?_⟩
  · simp only [NLPClassifier.classifyFromFeatures, hscore]
    norm_num
  · simp only [NLPClassifier.classifyFromFeatures, hscore, NLPClassifier.jsRound]
    norm_num
  · simp only [NLPClassifier.classifyFromFeatures, hscore,
               NLPClassifier.generateReason, hotp, hbank, hlegit]
    norm_num

/-- Witness for C9 at the all-zero feature record. -/
theorem C9_scorer_neutral_witness :
    (NLPClassifier.classifyFromFeatures
        ⟨false, false, false, 0, 0, 0, 0, false, false, 0, 0, 0, 0⟩).isSpam = false ∧
    (NLPClassifier.classifyFromFeatures
        ⟨false, false, false, 0, 0, 0, 0, false, false, 0, 0, 0, 0⟩).confidence = 0 ∧
    (NLPClassifier.classifyFromFeatures
        ⟨false, false, false, 0, 0, 0, 0, false, false, 0, 0, 0, 0⟩).reason =
      "No spam indicators found" :=
  C9_scorer_neutral _ rfl (by norm_num) (by norm_num) (by norm_num) rfl rfl rfl rfl

lemma filter_length_mono {p q : Char → Bool} (h : ∀ c, p c = true → q c = true) :
    ∀ l : List Char, (l.filter p).length ≤ (l.filter q).length := by
  intro l
  induction l with
  | nil => simp
  | cons c t ih =>
    by_cases hc : p c = true
    · simp [List.filter_cons, hc, h c hc]
      omega
    · simp only [List.filter_cons]
      rw [if_neg (by simpa using hc)]
      split
      · exact ih.trans (by simp)
      · exact ih

namespace NLPClassifier

lemma upper_implies_letter (c : Char) :
    isAsciiUpper c = true → isAsciiLetter c = true := by
  unfold isAsciiUpper isAsciiLetter
  intro hc
  simp only [Bool.or_eq_true]
  exact Or.inr hc

lemma calculateCapitalRatio_nonneg (text : List Char) :
    0 ≤ calculateCapitalRatio text := by
  simp only [calculateCapitalRatio]
  split
  · norm_num
  · positivity

lemma calculateCapitalRatio_le_one (text : List Char) :
    calculateCapitalRatio text ≤ 1 := by
  simp only [calculateCapitalRatio]
  split
  · norm_num
  · rename_i h
    have hpos : 0 < ((text.filter isAsciiLetter).length : ℚ) := by
      exact_mod_cast Nat.pos_of_ne_zero h
    rw [div_le_one hpos]
    exact_mod_cast filter_length_mono upper_implies_letter text

end NLPClassifier

namespace NLPClassifier

lemma urgency_foldl_nonneg (text : List Char) :
    ∀ (ws : List String) (acc : ℚ), 0 ≤ acc →
      0 ≤ ws.foldl (fun a w => if hasSub text w.data then a + 1/10 else a) acc := by
  intro ws
  induction ws with
  | nil => intro acc h; simpa using h
  | cons w rest ih =>
    intro acc h
    simp only [List.foldl_cons]
    apply ih
    split
    · linarith
    · exact h

lemma calculateUrgencyScore_nonneg (text : List Char) :
    0 ≤ calculateUrgencyScore text := by
  simp only [calculateUrgencyScore]
  apply le_min _ (by norm_num)
  apply add_nonneg
  · exact urgency_foldl_nonneg text urgentWords 0 le_rfl
  · apply le_min _ (by norm_num)
    positivity

lemma calculateUrgencyScore_le_one (text : List Char) :
    calculateUrgencyScore text ≤ 1 := by
  simp only [calculateUrgencyScore]
  exact min_le_right _ _

end NLPClassifier

/-- Claim C10: feature extraction is total and every extracted feature
lies in its documented range — both ratio features are in [0, 1], the
capital ratio is 0 (not NaN) when the text has no letters, and all count
features are nonnegative. -/
theorem C10_feature_ranges (st : NLPClassifier.RegexState) (message : String) :
    (0 ≤ ((NLPClassifier.extractFeatures st message).1).capitalRatio ∧
      ((NLPClassifier.extractFeatures st message).1).capitalRatio ≤ 1) ∧
    ((message.data.filter isAsciiLetter).length = 0 →
      ((NLPClassifier.extractFeatures st message).1).capitalRatio = 0) ∧
    (0 ≤ ((NLPClassifier.extractFeatures st message).1).urgencyScore ∧
      ((NLPClassifier.extractFeatures st message).1).urgencyScore ≤ 1) ∧
    (0 ≤ (((NLPClassifier.extractFeatures st message).1).exclamationCount : ℤ) ∧
      0 ≤ (((NLPClassifier.extractFeatures st message).1).questionCount : ℤ) ∧
      0 ≤ (((NLPClassifier.extractFeatures st message).1).wordCount : ℤ) ∧
      0 ≤ (((NLPClassifier.extractFeatures st message).1).spamKeywordCount : ℤ) ∧
      0 ≤ (((NLPClassifier.extractFeatures st message).1).legitPatternCount : ℤ)) := by
  simp only [NLPClassifier.extractFeatures]
  refine ⟨⟨NLPClassifier.calculateCapitalRatio_nonneg _,
           NLPClassifier.calculateCapitalRatio_le_one _⟩, ?_,
          ⟨NLPClassifier.calculateUrgencyScore_nonneg _,
           NLPClassifier.calculateUrgencyScore_le_one _⟩,
          by positivity, by positivity, by positivity, by positivity, by positivity⟩
  intro h
  simp only [NLPClassifier.calculateCapitalRatio]
  rw [if_pos h]

/-- Witness for C10 at a letterless message ("123!"), exercising the
division-guard branch of the capital ratio. -/
theorem C10_feature_ranges_witness :
    ((NLPClassifier.extractFeatures NLPClassifier.initialRegexState "123!").1).capitalRatio
        = 0 ∧
    0 ≤ ((NLPClassifier.extractFeatures NLPClassifier.initialRegexState "123!").1).urgencyScore :=
  ⟨(C10_feature_ranges NLPClassifier.initialRegexState "123!").2.1 (by decide),
   (C10_feature_ranges NLPClassifier.initialRegexState "123!").2.2.1.1⟩

namespace Classification

lemma calculateKeywordSpamScore_nonneg (text : List Char) (kws : List String) :
    0 ≤ calculateKeywordSpamScore text kws := by
  simp only [calculateKeywordSpamScore]
  split
  · norm_num
  · exact le_min (by positivity) (by norm_num)

lemma classifyWithKeywords_confidence_bounds (text : String) :
    0 ≤ (classifyWithKeywords text).confidence ∧
      (classifyWithKeywords text).confidence ≤ 1 := by
  constructor
  · exact le_min
      (mul_nonneg (calculateKeywordSpamScore_nonneg _ _) (by norm_num)) (by norm_num)
  · exact (min_le_right _ _).trans (by norm_num)

lemma classifyWithKeywords_reason_ne_empty (text : String) :
    (classifyWithKeywords text).reason ≠ "" := by
  simp only [classifyWithKeywords]
  split
  · intro h
    have hl := congrArg String.length h
    simp [String.length_append] at hl
    exact absurd hl.1.1 (by decide)
  · intro h
    have hl := congrArg String.length h
    simp at hl
    exact absurd hl (by decide)

end Classification

/-- Claim C8: the keyword-ratio fallback classifies as spam exactly when
the token match ratio exceeds 0.15, and its confidence is
`min(2 × ratio, 0.85)`, hence never above 0.85. -/
theorem C8_keyword_fallback (text : String) :
    ((Classification.classifyWithKeywords text).isSpam = true ↔
      calculateKeywordSpamScore text.data Classification.SPAM_KEYWORDS > 15/100) ∧
    (Classification.classifyWithKeywords text).confidence =
      min (calculateKeywordSpamScore text.data Classification.SPAM_KEYWORDS * 2) (85/100) ∧
    (Classification.classifyWithKeywords text).confidence ≤ 85/100 := by
  refine ⟨?_, rfl, ?_⟩
  · simp only [Classification.classifyWithKeywords]
    exact decide_eq_true_iff
  · exact min_le_right _ _

/-- Claim C1 counterexample: when the adjudicator is initialized and the
AI returns a *shape-valid* JSON object whose `reason` field is the empty
string, `classifyMessage` passes the empty reason through — the claimed
"non-empty reason on every path" is false. -/
theorem C1_empty_reason_counterexample :
    (Classification.classifyMessage true
      (Classification.AIOutcome.success ⟨false, 1/2, ""⟩) "hello").reason = "" := by
  with_unfolding_all decide

/-- Claim C1 (amended): `classifyMessage` is total (never throws) and its
confidence always lies in [0, 1]; the reason is non-empty whenever the
keyword fallback answers (service uninitialized, or AI failure), while on
AI success the reason is the adjudicator's string verbatim — possibly
empty. -/
theorem C1_classify_total_amended (initialized : Bool)
    (outcome : Classification.AIOutcome) (text : String) :
    0 ≤ (Classification.classifyMessage initialized outcome text).confidence ∧
    (Classification.classifyMessage initialized outcome text).confidence ≤ 1 ∧
    ((initialized = false ∨ outcome = Classification.AIOutcome.failure) →
      (Classification.classifyMessage initialized outcome text).reason ≠ "") ∧
    (∀ r, outcome = Classification.AIOutcome.success r → initialized = true →
      (Classification.classifyMessage initialized outcome text).reason = r.reason) := by
  cases outcome with
  | failure =>
    have hres : Classification.classifyMessage initialized
        Classification.AIOutcome.failure text = Classification.classifyWithKeywords text := by
      cases initialized <;> rfl
    rw [hres]
    refine ⟨(Classification.classifyWithKeywords_confidence_bounds text).1,
            (Classification.classifyWithKeywords_confidence_bounds text).2,
            fun _ => Classification.classifyWithKeywords_reason_ne_empty text,
            fun r h => by cases h⟩
  | success r =>
    cases initialized with
    | false =>
      refine ⟨(Classification.classifyWithKeywords_confidence_bounds text).1,
              (Classification.classifyWithKeywords_confidence_bounds text).2,
              fun _ => Classification.classifyWithKeywords_reason_ne_empty text,
              fun r' _ h => by cases h⟩
    | true =>
      refine ⟨le_max_left _ _, max_le (by norm_num) (min_le_left _ _), ?_, ?_⟩
      · intro h
        rcases h with h | h
        · cases h
        · cases h
      · intro r' hs _
        cases hs
        rfl

/-- Witness for the amended C1: both hypotheses discharged at concrete
inputs — the fallback path yields a non-empty reason, and a successful
adjudication passes its reason (and, after clamping, its confidence)
through. -/
theorem C1_classify_total_amended_witness :
    (Classification.classifyMessage true Classification.AIOutcome.failure "hi").reason ≠ "" ∧
    (Classification.classifyMessage true
      (Classification.AIOutcome.success ⟨true, 2, "ai says"⟩) "hi").reason = "ai says" :=
  ⟨(C1_classify_total_amended true Classification.AIOutcome.failure "hi").2.2.1 (Or.inr rfl),
   (C1_classify_total_amended true
      (Classification.AIOutcome.success ⟨true, 2, "ai says"⟩) "hi").2.2.2
      ⟨true, 2, "ai says"⟩ rfl rfl⟩

/-- Claim C2 failing input: with the adjudicator configured, the pipeline
calls the AI *unconditionally* — on the message "otp" the deterministic
Scorer (which the pipeline never consults; `nlpClassifierService` has no
importer) is maximally confident (confidence 1, verdict ham), yet a
successful adjudication is still taken as the final verdict, so the AI is
not gated by any deterministic-confidence trust threshold. -/
theorem C2_adjudicator_not_gated :
    (NLPClassifier.classifyMessage NLPClassifier.initialRegexState "otp").1.isSpam = false ∧
    (NLPClassifier.classifyMessage NLPClassifier.initialRegexState "otp").1.confidence = 1 ∧
    Classification.classifyMessage true
      (Classification.AIOutcome.success ⟨true, 9/10, "AI adjudication"⟩) "otp" =
      ⟨true, 9/10, "AI adjudication"⟩ := by
  with_unfolding_all decide

/-- Claim C5: the classifier is observably deterministic.  The shared
`/gi` regexes of `legitimatePatterns` do retain a `lastIndex` between
calls (`detectOTP`'s `.test` writes it), but every `classifyMessage`
call evaluates `legitPatternCount` — whose `String.match` resets those
same regexes' `lastIndex` to 0 — *before* `hasOTP`/`hasBankingTerms`
read them, so the result (isSpam, confidence, reason, and every
feature) and even the outgoing regex state are functions of the message
alone: calls agree from any two states, i.e. under any interleaving
with other calls.  The final conjunct re-runs "otp" from the state the
first call leaves behind (`lastIndex = 3` on the first otp regex) and
still detects the OTP. -/
theorem C5_classifier_deterministic (s1 s2 : NLPClassifier.RegexState) (message : String) :
    (NLPClassifier.classifyMessage s1 message).1 =
      (NLPClassifier.classifyMessage s2 message).1 ∧
    (NLPClassifier.classifyMessage s1 message).2 =
      (NLPClassifier.classifyMessage s2 message).2 ∧
    (NLPClassifier.classifyMessage
      (NLPClassifier.classifyMessage s1 message).2 message).1 =
      (NLPClassifier.classifyMessage s1 message).1 ∧
    (NLPClassifier.classifyMessage
      (NLPClassifier.classifyMessage NLPClassifier.initialRegexState "otp").2
      "otp").1.features.hasOTP = true := by
  refine ⟨rfl, rfl, rfl, ?_⟩
  with_unfolding_all decide

/-- Claim C3 failing input: a queue entry whose send always fails is
*never* dropped and never counted as failed.  `sendSpamNotification`
catches its own network error, re-queues the message with `retries = 0`
and returns `false`, so `processQueue`'s `catch` branch (the only place
`retries` is incremented and entries are dropped at 3) is unreachable:
three consecutive drain cycles each report `sent = 1, failed = 0` and
leave the entry queued with `retries = 0`, ready for a 4th attempt. -/
theorem C3_failed_entry_never_dropped :
    (Telegram.processQueue
      (Telegram.State.mk true true [("m1", 0)] false (fun _ => false) 0)).1 = (1, 0) ∧
    (Telegram.processQueue
      (Telegram.processQueue
        (Telegram.State.mk true true [("m1", 0)] false (fun _ => false) 0)).2).1 = (1, 0) ∧
    (Telegram.processQueue
      (Telegram.processQueue
        (Telegram.processQueue
          (Telegram.State.mk true true [("m1", 0)] false (fun _ => false) 0)).2).2).1 =
      (1, 0) ∧
    (Telegram.processQueue
      (Telegram.processQueue
        (Telegram.processQueue
          (Telegram.State.mk true true [("m1", 0)] false (fun _ => false) 0)).2).2).2.queue =
      [("m1", 0)] := by
  decide

/-- Claim C6: re-ingesting a message whose id is already stored is a
no-op for storage — the inbox-scan loop checks `getMessage` first and
skips everything (insert, classify, update) when a row exists, so the
stored row, its verdict, confidence and reason included, is unchanged. -/
theorem C6_reingest_noop (db : Store.DB) (nm : Store.NativeMsg)
    (cr : Classification.ClassificationResult) (now : Int) (row : Store.Row)
    (h : Store.dbGet db nm.id = some row) :
    Store.ingestInboxMessage db nm cr now = (db, 0) ∧
    Store.dbGet (Store.ingestInboxMessage db nm cr now).1 nm.id = some row := by
  have h1 : Store.ingestInboxMessage db nm cr now = (db, 0) := by
    simp only [Store.ingestInboxMessage, h]
  exact ⟨h1, by rw [h1]; exact h⟩

/-- Witness for C6: a store already holding a classified row for id "m1"
is untouched by a second ingestion of "m1". -/
theorem C6_reingest_noop_witness :
    Store.ingestInboxMessage
        [("m1", Store.Row.mk "alice" "hello" 5 (some false) (some 1) (some "ok") (some 6))]
        (Store.NativeMsg.mk "m1" "bob" "hi" 7)
        (Classification.ClassificationResult.mk true 1 "spam") 9 =
      ([("m1", Store.Row.mk "alice" "hello" 5 (some false) (some 1) (some "ok") (some 6))], 0) ∧
    Store.dbGet
        (Store.ingestInboxMessage
          [("m1", Store.Row.mk "alice" "hello" 5 (some false) (some 1) (some "ok") (some 6))]
          (Store.NativeMsg.mk "m1" "bob" "hi" 7)
          (Classification.ClassificationResult.mk true 1 "spam") 9).1 "m1" =
      some (Store.Row.mk "alice" "hello" 5 (some false) (some 1) (some "ok") (some 6)) :=
  C6_reingest_noop _ _ _ _ _ (by with_unfolding_all decide)

/-- Claim C7: a drain invoked while another drain is in progress returns
zero sent/failed counts and leaves the whole state — the queue included —
exactly as it was. -/
theorem C7_drain_not_reentrant (s : Telegram.State) (h : s.isProcessing = true) :
    Telegram.processQueue s = ((0, 0), s) := by
  simp only [Telegram.processQueue, h]
  simp

/-- Witness for C7 at a mid-drain state with a non-empty queue. -/
theorem C7_drain_not_reentrant_witness :
    Telegram.processQueue (Telegram.State.mk true true [("m", 2)] true (fun _ => false) 4) =
      ((0, 0), Telegram.State.mk true true [("m", 2)] true (fun _ => false) 4) :=
  C7_drain_not_reentrant _ rfl
